import Mathlib

/-!
# Verification of the Snowflake CSV-upload MCP server

A shallow embedding of `src/mcp_server.py`.  The script has two parts:

* a startup configuration gate (lines 14-38): validate the eight required
  environment variables, check the CSV file exists, initialize the MCP
  server — exiting the process with status 1 on any failure; and
* a single tool `upload_csv_to_snowflake` (lines 41-86): read the CSV,
  upper-case its column names, connect to Snowflake, bulk-load via
  `write_pandas`, verify with `SELECT COUNT(*)`, and return a status dict.

External collaborators (the pandas CSV reader, the Snowflake connector,
the vendor bulk-loader and SQL cursor) are modelled as oracle outcomes in
an `Env` record; their nominal semantics where a claim needs it follows
the contracts the spec assumes of them.  Each invocation of the tool also
produces a trace of the external calls it attempted, so that claims of
the form "X is (not) attempted" and "the cursor/connection are closed"
are stated about the trace.
-/

/-- A scalar cell value of the tabular data.  The claims never inspect the
cells themselves, so a string representation suffices. -/
abbrev Cell := String

/-- One data row: the cells, in column order. -/
abbrev Row := List Cell

/-- The in-memory tabular dataset produced by `pd.read_csv`: a list of
column names together with the data rows (pandas stores data positionally;
the column labels are a separate list that can be reassigned without
touching the data, which is exactly what line 56 of the source does). -/
structure DataFrame where
  columns : List String
  rows : List Row
deriving Repr, DecidableEq

/-- The dictionary returned by `upload_csv_to_snowflake`: either
`{"status": "success", "rows_uploaded": …, "total_rows_in_table": …}`
or `{"status": "error", "message": …}`. -/
inductive UploadResult where
  | success (rows_uploaded : Nat) (total_rows_in_table : Nat)
  | error (message : String)
deriving Repr, DecidableEq

/-- The `status` field of the returned dictionary. -/
def UploadResult.status : UploadResult → String
  | .success _ _ => "success"
  | .error _ => "error"

/-- Possible behaviours of the vendor bulk-loader `write_pandas` on a given
call: complete normally, report non-success through its boolean flag
without raising, or raise an exception. -/
inductive WriteBehavior where
  | normal
  | reject
  | raise (msg : String)
deriving Repr, DecidableEq

/-- Possible behaviours of the verification query
(`cur.execute`/`fetchone`): complete normally or raise an exception. -/
inductive QueryBehavior where
  | normal
  | raise (msg : String)
deriving Repr, DecidableEq

/-- The externally observable calls one invocation of the tool makes, in
order.  `write_pandas_call` records the dataframe handed to the
bulk-loader (after normalization) and the target table name. -/
inductive Event where
  | read_csv_call
  | connect_call
  | write_pandas_call (df : DataFrame) (table : String)
  | count_query_call (table : String)
  | cursor_close
  | conn_close
deriving Repr, DecidableEq

/-- Oracle for one invocation of the tool: the outcomes of the external
calls.  `read_csv` is the outcome of `pd.read_csv(csv_path)`; `connect`
is the outcome of `snowflake.connector.connect(**sf_config)`, yielding on
success the current contents of the remote target table; `write` and
`query` fix the behaviour of the bulk-loader and of the verification
cursor; `snowflake_table` is the configured `SNOWFLAKE_TABLE` value. -/
structure Env where
  read_csv : Except String DataFrame
  connect : Except String (List Row)
  write : WriteBehavior
  query : QueryBehavior
  snowflake_table : String

/-- Modelled from the spec (§6 external collaborators): the vendor
bulk-loader `write_pandas(conn, df, table)` returns a tuple whose first
component is a success flag and whose third component is the number of
rows written; on normal completion it appends the dataframe's rows to the
remote table and reports their count.  The result here is
`(success, nrows, new table contents)`, or an exception. -/
def write_pandas (b : WriteBehavior) (table : List Row) (df : DataFrame) :
    Except String (Bool × Nat × List Row) :=
  match b with
  | .normal => .ok (true, df.rows.length, table ++ df.rows)
  | .reject => .ok (false, 0, table)
  | .raise m => .error m

/-- Modelled from the spec (§6 external collaborators): the verification
cursor runs `SELECT COUNT(*) FROM <table>` and `fetchone()[0]` yields the
number of rows of the whole remote table. -/
def count_query (b : QueryBehavior) (table : List Row) : Except String Nat :=
  match b with
  | .normal => .ok table.length
  | .raise m => .error m

/-- Python's `str.upper()` as applied to a column name on line 56:
upper-case the string character by character. -/
def py_upper (s : String) : String := ⟨s.data.map Char.toUpper⟩

/-- Line 56 of the source:
`df.columns = [col.upper() for col in df.columns]` — reassign the column
labels to their upper-cased forms, leaving the data untouched. -/
def normalize_columns (df : DataFrame) : DataFrame :=
  { df with columns := df.columns.map py_upper }

/-- The tool `upload_csv_to_snowflake` (source lines 41-86), as a function
of the oracle: returns the result dictionary together with the trace of
external calls made.  Each `try/except` of the source appears as a match
on the corresponding oracle outcome, with the handler's early `return`
translated literally. -/
def upload_csv_to_snowflake (env : Env) : UploadResult × List Event :=
  match env.read_csv with
  | .error e => (.error ("Error reading CSV: " ++ e), [.read_csv_call])
  | .ok df0 =>
    match env.connect with
    | .error e =>
        (.error ("Connection failed: " ++ e), [.read_csv_call, .connect_call])
    | .ok table =>
      match write_pandas env.write table (normalize_columns df0) with
      | .error e =>
          (.error ("Upload error: " ++ e),
           [.read_csv_call, .connect_call,
            .write_pandas_call (normalize_columns df0) env.snowflake_table])
      | .ok (success, nrows, table') =>
        if success then
          match count_query env.query table' with
          | .error e =>
              (.error ("Upload error: " ++ e),
               [.read_csv_call, .connect_call,
                .write_pandas_call (normalize_columns df0) env.snowflake_table,
                .count_query_call env.snowflake_table])
          | .ok row_count =>
              (.success nrows row_count,
               [.read_csv_call, .connect_call,
                .write_pandas_call (normalize_columns df0) env.snowflake_table,
                .count_query_call env.snowflake_table,
                .cursor_close, .conn_close])
        else
          (.error "Upload to Snowflake failed",
           [.read_csv_call, .connect_call,
            .write_pandas_call (normalize_columns df0) env.snowflake_table])

/-- Source lines 14-17: the eight required environment variables. -/
def REQUIRED_ENV : List String :=
  ["CSV_PATH", "SNOWFLAKE_USER", "SNOWFLAKE_PASSWORD", "SNOWFLAKE_ACCOUNT",
   "SNOWFLAKE_WAREHOUSE", "SNOWFLAKE_DATABASE", "SNOWFLAKE_SCHEMA",
   "SNOWFLAKE_TABLE"]

/-- Oracle for the startup sequence: `os.getenv` (`none` = unset),
`os.path.exists`, and the outcome of constructing `FastMCP`. -/
structure StartupEnv where
  getenv : String → Option String
  path_exists : String → Bool
  mcp_init : Except String Unit

/-- Python truthiness of an `os.getenv` result as used by
`if not os.getenv(var)` (line 21): `None` and the empty string are falsy. -/
def env_truthy (v : Option String) : Bool :=
  match v with
  | none => false
  | some s => s != ""

/-- Startup-side observable steps. -/
inductive StartupEvent where
  | mcp_initialized
  | tool_registered
deriving Repr, DecidableEq

/-- Terminal state of the startup sequence: the process either called
`sys.exit(code)` after printing the given diagnostic, or reached the
point where the tool is registered and the server can serve. -/
inductive StartupOutcome where
  | exited (code : Nat) (diagnostic : String)
  | serving
deriving Repr, DecidableEq

/-- Source lines 20-40: validate the environment variables in order
(first falsy one exits with status 1), check the CSV file exists (exit 1
if not), initialize the MCP server (exit 1 on exception), then register
the tool.  Returns the startup events together with the outcome. -/
def startup (env : StartupEnv) : List StartupEvent × StartupOutcome :=
  match REQUIRED_ENV.find? (fun v => !env_truthy (env.getenv v)) with
  | some v => ([], .exited 1 ("Missing environment variable: " ++ v))
  | none =>
    let csv_path := (env.getenv "CSV_PATH").getD ""
    if env.path_exists csv_path then
      match env.mcp_init with
      | .error e =>
          ([], .exited 1 ("Failed to initialize MCP server: " ++ e))
      | .ok _ => ([.mcp_initialized, .tool_registered], .serving)
    else
      ([], .exited 1 ("CSV file not found: " ++ csv_path))

/-! ## Concrete sample environments, used by the witnesses -/

/-- A small dataframe with mixed-case column names. -/
def sample_df : DataFrame :=
  { columns := ["id", "Name", "Value"], rows := [["1", "alice", "10"]] }

/-- A fully successful invocation environment: the CSV parses to
`sample_df`, the remote table already holds two rows, and both the
bulk-loader and the verification query behave normally. -/
def ok_env : Env :=
  { read_csv := .ok sample_df,
    connect := .ok [["0", "zero", "0"], ["9", "nine", "9"]],
    write := .normal, query := .normal, snowflake_table := "SALES" }

/-- Invocation in which `pd.read_csv` raises. -/
def read_fail_env : Env := { ok_env with read_csv := .error "bad file" }

/-- Invocation in which `snowflake.connector.connect` raises. -/
def connect_fail_env : Env := { ok_env with connect := .error "auth denied" }

/-- Invocation in which `write_pandas` returns `success = False`. -/
def reject_env : Env := { ok_env with write := .reject }

/-- Invocation in which `write_pandas` raises. -/
def write_raise_env : Env := { ok_env with write := .raise "boom" }

/-- A dataframe that parsed to zero data rows. -/
def empty_df : DataFrame := { columns := ["A", "b"], rows := [] }

/-- Successful invocation whose CSV has zero data rows. -/
def empty_env : Env := { ok_env with read_csv := .ok empty_df }

/-- Startup environment in which `SNOWFLAKE_USER` is unset. -/
def missing_user_env : StartupEnv :=
  { getenv := fun v => if v = "SNOWFLAKE_USER" then none else some ("val_" ++ v),
    path_exists := fun _ => true, mcp_init := .ok () }

/-- Startup environment in which all variables are set but the CSV file
does not exist. -/
def no_file_env : StartupEnv :=
  { getenv := fun v => some ("val_" ++ v),
    path_exists := fun _ => false, mcp_init := .ok () }

/-! ## Helper lemmas -/

/-- Every invocation of the tool terminates in a returned `UploadResult`
whose status is one of the two documented tags: nothing escapes. -/
theorem upload_status_total (env : Env) :
    (upload_csv_to_snowflake env).1.status = "success" ∨
    (upload_csv_to_snowflake env).1.status = "error" := by
  unfold upload_csv_to_snowflake
  cases h1 : env.read_csv with
  | error e => simp [UploadResult.status]
  | ok df0 =>
    cases h2 : env.connect with
    | error e => simp [UploadResult.status]
    | ok table =>
      cases hw : write_pandas env.write table (normalize_columns df0) with
      | error e => simp [hw, UploadResult.status]
      | ok res =>
        obtain ⟨success, nrows, table'⟩ := res
        cases success with
        | false => simp [hw, UploadResult.status]
        | true =>
          cases hq : count_query env.query table' with
          | error e => simp [hw, hq, UploadResult.status]
          | ok n => simp [hw, hq, UploadResult.status]

/-! ## Claims -/

/-- C1: For every CSV input that parses successfully, every column name of
the in-memory dataset is converted to upper case before the bulk-insert
call, regardless of the input file's column casing: whenever the trace
contains a bulk-insert call, the dataframe handed to it has exactly the
upper-cased forms of the parsed input's column names. -/
theorem upload_normalizes_columns (env : Env) (df0 : DataFrame)
    (h : env.read_csv = .ok df0) :
    ∀ df tbl, Event.write_pandas_call df tbl ∈ (upload_csv_to_snowflake env).2 →
      df.columns = df0.columns.map py_upper := by
  intro df tbl hmem
  unfold upload_csv_to_snowflake at hmem
  rw [h] at hmem
  cases h2 : env.connect with
  | error e => simp [h2] at hmem
  | ok table =>
    cases hw : write_pandas env.write table (normalize_columns df0) with
    | error e =>
      simp [h2, hw] at hmem
      rw [hmem.1]; simp [normalize_columns]
    | ok res =>
      obtain ⟨success, nrows, table'⟩ := res
      cases success with
      | false =>
        simp [h2, hw] at hmem
        rw [hmem.1]; simp [normalize_columns]
      | true =>
        cases hq : count_query env.query table' with
        | error e =>
          simp [h2, hw, hq] at hmem
          rw [hmem.1]; simp [normalize_columns]
        | ok n =>
          simp [h2, hw, hq] at hmem
          rw [hmem.1]; simp [normalize_columns]

/-- Witness for C1 at a concrete invocation: the sample CSV has columns
`id, Name, Value` and the dataframe handed to the bulk-loader carries
`ID, NAME, VALUE`. -/
theorem upload_normalizes_columns_witness :
    ok_env.read_csv = .ok sample_df ∧
    (normalize_columns sample_df).columns = sample_df.columns.map py_upper ∧
    sample_df.columns.map py_upper = ["ID", "NAME", "VALUE"] :=
  ⟨rfl,
   upload_normalizes_columns ok_env sample_df rfl
     (normalize_columns sample_df) "SALES" (by decide),
   by decide⟩

/-- C2: when the bulk-load of the parsed rows succeeds into a table that
previously held `table.length` rows and the verification query runs
normally, the returned result is `success`, `rows_uploaded` is the number
of parsed rows, and `total_rows_in_table` is the post-upload count of the
whole remote table, namely previous count plus uploaded count. -/
theorem upload_success_counts (env : Env) (df0 : DataFrame) (table : List Row)
    (h1 : env.read_csv = .ok df0) (h2 : env.connect = .ok table)
    (h3 : env.write = .normal) (h4 : env.query = .normal) :
    (upload_csv_to_snowflake env).1 =
      .success df0.rows.length (table.length + df0.rows.length) := by
  simp [upload_csv_to_snowflake, h1, h2, h3, h4, write_pandas, count_query,
        normalize_columns]

/-- Witness for C2: uploading the 1-row sample CSV into a table of 2 rows
reports 1 row uploaded and 3 rows total. -/
theorem upload_success_counts_witness :
    (upload_csv_to_snowflake ok_env).1 = .success 1 3 := by
  have h := upload_success_counts ok_env sample_df
      [["0", "zero", "0"], ["9", "nine", "9"]] rfl rfl rfl rfl
  simpa [sample_df] using h

/-- C10: column-name normalization changes only the column names: the
rows (hence their number, order, and every cell value) are unchanged, the
number of columns is unchanged, and the column list is positionally the
upper-cased image of the original, preserving order. -/
theorem normalize_columns_frame (df : DataFrame) :
    (normalize_columns df).rows = df.rows ∧
    (normalize_columns df).columns.length = df.columns.length ∧
    (normalize_columns df).columns = df.columns.map py_upper := by
  simp [normalize_columns]

/-- C3: no exception escapes the upload procedure.  Every invocation
returns a well-formed result (status `success` or `error`), and an
exception raised at any of the connect / bulk-load / verification stages
is converted into a returned `error` result whose message embeds the
exception's description. -/
theorem upload_catches_exceptions (env : Env) :
    ((upload_csv_to_snowflake env).1.status = "success" ∨
     (upload_csv_to_snowflake env).1.status = "error") ∧
    (∀ df0 e, env.read_csv = .ok df0 → env.connect = .error e →
       (upload_csv_to_snowflake env).1 = .error ("Connection failed: " ++ e)) ∧
    (∀ df0 table e, env.read_csv = .ok df0 → env.connect = .ok table →
       env.write = .raise e →
       (upload_csv_to_snowflake env).1 = .error ("Upload error: " ++ e)) ∧
    (∀ df0 table e, env.read_csv = .ok df0 → env.connect = .ok table →
       env.write = .normal → env.query = .raise e →
       (upload_csv_to_snowflake env).1 = .error ("Upload error: " ++ e)) := by
  refine ⟨upload_status_total env, ?_, ?_, ?_⟩ <;> intros <;>
    simp [upload_csv_to_snowflake, write_pandas, count_query, *]

/-- Witness for C3: when the bulk-loader raises `boom`, the tool returns
the error result rather than letting the exception escape. -/
theorem upload_catches_exceptions_witness :
    (upload_csv_to_snowflake write_raise_env).1 =
      .error ("Upload error: " ++ "boom") :=
  (upload_catches_exceptions write_raise_env).2.2.1 sample_df
    [["0", "zero", "0"], ["9", "nine", "9"]] "boom" rfl rfl rfl

/-- C4: when the CSV parses but establishing the connection raises, the
result is an `error` with a connection-failure message, and neither the
bulk-load call nor the verification query appears in the trace. -/
theorem connect_failure_no_upload (env : Env) (df0 : DataFrame) (e : String)
    (h1 : env.read_csv = .ok df0) (h2 : env.connect = .error e) :
    (upload_csv_to_snowflake env).1 = .error ("Connection failed: " ++ e) ∧
    (∀ df tbl, Event.write_pandas_call df tbl ∉ (upload_csv_to_snowflake env).2) ∧
    (∀ tbl, Event.count_query_call tbl ∉ (upload_csv_to_snowflake env).2) := by
  simp [upload_csv_to_snowflake, h1, h2]

/-- Witness for C4 at a concrete invocation with a rejected credential. -/
theorem connect_failure_no_upload_witness :
    (upload_csv_to_snowflake connect_fail_env).1 =
      .error ("Connection failed: " ++ "auth denied") ∧
    (∀ df tbl,
       Event.write_pandas_call df tbl ∉ (upload_csv_to_snowflake connect_fail_env).2) ∧
    (∀ tbl,
       Event.count_query_call tbl ∉ (upload_csv_to_snowflake connect_fail_env).2) :=
  connect_failure_no_upload connect_fail_env sample_df "auth denied" rfl rfl

/-- C5: when reading the CSV raises, the result is an `error` whose message
embeds the read failure's cause; the failure is a returned result, its
status is `error`, and every subsequent invocation still returns a
well-formed result (the process keeps serving). -/
theorem read_failure_reported (env : Env) (e : String)
    (h : env.read_csv = .error e) :
    (upload_csv_to_snowflake env).1 = .error ("Error reading CSV: " ++ e) ∧
    (upload_csv_to_snowflake env).1.status = "error" ∧
    (∀ env2 : Env, (upload_csv_to_snowflake env2).1.status = "success" ∨
       (upload_csv_to_snowflake env2).1.status = "error") :=
  ⟨by simp [upload_csv_to_snowflake, h],
   by simp [upload_csv_to_snowflake, h, UploadResult.status],
   fun env2 => upload_status_total env2⟩

/-- Witness for C5 at a concrete invocation with an unreadable file. -/
theorem read_failure_reported_witness :
    (upload_csv_to_snowflake read_fail_env).1 =
      .error ("Error reading CSV: " ++ "bad file") ∧
    (upload_csv_to_snowflake read_fail_env).1.status = "error" ∧
    (∀ env2 : Env, (upload_csv_to_snowflake env2).1.status = "success" ∨
       (upload_csv_to_snowflake env2).1.status = "error") :=
  read_failure_reported read_fail_env "bad file" rfl

/-- C6: when the bulk-loader reports `success = False` without raising,
the result is an `error` with the fixed message
"Upload to Snowflake failed" and the verification query is not run. -/
theorem write_reject_reported (env : Env) (df0 : DataFrame) (table : List Row)
    (h1 : env.read_csv = .ok df0) (h2 : env.connect = .ok table)
    (h3 : env.write = .reject) :
    (upload_csv_to_snowflake env).1 = .error "Upload to Snowflake failed" ∧
    (∀ tbl, Event.count_query_call tbl ∉ (upload_csv_to_snowflake env).2) := by
  simp [upload_csv_to_snowflake, h1, h2, h3, write_pandas]

/-- Witness for C6 at a concrete invocation with a rejecting bulk-loader. -/
theorem write_reject_reported_witness :
    (upload_csv_to_snowflake reject_env).1 = .error "Upload to Snowflake failed" ∧
    (∀ tbl, Event.count_query_call tbl ∉ (upload_csv_to_snowflake reject_env).2) :=
  write_reject_reported reject_env sample_df
    [["0", "zero", "0"], ["9", "nine", "9"]] rfl rfl rfl

/-- C7: at startup, if one of the eight required configuration values is
absent (or, with all of them present, the configured file path does not
resolve to an existing file), the process exits with status 1 and a
diagnostic naming the failing item, and the tool is never registered. -/
theorem startup_gate_exits (env : StartupEnv)
    (h : (∃ v, v ∈ REQUIRED_ENV ∧ env.getenv v = none) ∨
         ((∀ v, v ∈ REQUIRED_ENV → env_truthy (env.getenv v) = true) ∧
          env.path_exists ((env.getenv "CSV_PATH").getD "") = false)) :
    StartupEvent.tool_registered ∉ (startup env).1 ∧
    ∃ d, startup env = ([], .exited 1 d) ∧
      ((∃ v, v ∈ REQUIRED_ENV ∧ env_truthy (env.getenv v) = false ∧
          d = "Missing environment variable: " ++ v) ∨
       d = "CSV file not found: " ++ (env.getenv "CSV_PATH").getD "") := by
  rcases h with ⟨v, hv, hnone⟩ | ⟨hall, hfile⟩
  · cases hfind : REQUIRED_ENV.find? (fun w => !env_truthy (env.getenv w)) with
    | none =>
      exfalso
      have hx := List.find?_eq_none.mp hfind v hv
      simp [hnone, env_truthy] at hx
    | some v' =>
      have hmem := List.mem_of_find?_eq_some hfind
      have hp := List.find?_some hfind
      have hstart : startup env =
          ([], .exited 1 ("Missing environment variable: " ++ v')) := by
        simp [startup, hfind]
      refine ⟨by simp [hstart], "Missing environment variable: " ++ v',
              by simp [hstart], Or.inl ⟨v', hmem, ?_, rfl⟩⟩
      simpa using hp
  · have hfind : REQUIRED_ENV.find? (fun w => !env_truthy (env.getenv w)) = none := by
      apply List.find?_eq_none.mpr
      intro x hx
      simp [hall x hx]
    have hstart : startup env =
        ([], .exited 1 ("CSV file not found: " ++ (env.getenv "CSV_PATH").getD "")) := by
      simp [startup, hfind, hfile]
    exact ⟨by simp [hstart],
           "CSV file not found: " ++ (env.getenv "CSV_PATH").getD "",
           by simp [hstart], Or.inr rfl⟩

/-- Witness for C7 at a concrete startup state with `SNOWFLAKE_USER`
unset: the process exits with status 1 and names a missing variable. -/
theorem startup_gate_exits_witness :
    StartupEvent.tool_registered ∉ (startup missing_user_env).1 ∧
    ∃ d, startup missing_user_env = ([], .exited 1 d) ∧
      ((∃ v, v ∈ REQUIRED_ENV ∧ env_truthy (missing_user_env.getenv v) = false ∧
          d = "Missing environment variable: " ++ v) ∨
       d = "CSV file not found: " ++ (missing_user_env.getenv "CSV_PATH").getD "") :=
  startup_gate_exits missing_user_env
    (Or.inl ⟨"SNOWFLAKE_USER", by decide, by decide⟩)

/-- Every invocation either reports `error`, or reports `success` with
both the cursor-close and the connection-close steps in its trace. -/
theorem upload_shape (env : Env) :
    (upload_csv_to_snowflake env).1.status = "error" ∨
    ((upload_csv_to_snowflake env).1.status = "success" ∧
     Event.cursor_close ∈ (upload_csv_to_snowflake env).2 ∧
     Event.conn_close ∈ (upload_csv_to_snowflake env).2) := by
  unfold upload_csv_to_snowflake
  cases h1 : env.read_csv with
  | error e => left; simp [UploadResult.status]
  | ok df0 =>
    cases h2 : env.connect with
    | error e => left; simp [UploadResult.status]
    | ok table =>
      cases hw : write_pandas env.write table (normalize_columns df0) with
      | error e => left; simp [hw, UploadResult.status]
      | ok res =>
        obtain ⟨success, nrows, table'⟩ := res
        cases success with
        | false => left; simp [hw, UploadResult.status]
        | true =>
          cases hq : count_query env.query table' with
          | error e => left; simp [hw, hq, UploadResult.status]
          | ok n => right; simp [hw, hq, UploadResult.status]

/-- C8: on every invocation that returns the success result, both the
cursor and the connection are closed before the procedure returns. -/
theorem success_closes_connection (env : Env)
    (h : (upload_csv_to_snowflake env).1.status = "success") :
    Event.cursor_close ∈ (upload_csv_to_snowflake env).2 ∧
    Event.conn_close ∈ (upload_csv_to_snowflake env).2 := by
  rcases upload_shape env with herr | ⟨-, hmem⟩
  · rw [h] at herr
    exact absurd herr (by decide)
  · exact hmem

/-- Witness for C8 at a concrete fully successful invocation. -/
theorem success_closes_connection_witness :
    Event.cursor_close ∈ (upload_csv_to_snowflake ok_env).2 ∧
    Event.conn_close ∈ (upload_csv_to_snowflake ok_env).2 :=
  success_closes_connection ok_env (by decide)

/-- C9: a CSV that parses to zero data rows is still bulk-loaded and
verified; the success result reports 0 rows uploaded and a total equal to
the table's pre-existing row count. -/
theorem empty_csv_still_uploads (env : Env) (df0 : DataFrame) (table : List Row)
    (h0 : df0.rows = []) (h1 : env.read_csv = .ok df0)
    (h2 : env.connect = .ok table)
    (h3 : env.write = .normal) (h4 : env.query = .normal) :
    Event.write_pandas_call (normalize_columns df0) env.snowflake_table ∈
      (upload_csv_to_snowflake env).2 ∧
    Event.count_query_call env.snowflake_table ∈ (upload_csv_to_snowflake env).2 ∧
    (upload_csv_to_snowflake env).1 = .success 0 table.length := by
  simp [upload_csv_to_snowflake, h1, h2, h3, h4, write_pandas, count_query,
        normalize_columns, h0]

/-- Witness for C9 at a concrete invocation whose CSV has zero rows and
whose remote table already holds two rows. -/
theorem empty_csv_still_uploads_witness :
    Event.write_pandas_call (normalize_columns empty_df) empty_env.snowflake_table ∈
      (upload_csv_to_snowflake empty_env).2 ∧
    Event.count_query_call empty_env.snowflake_table ∈
      (upload_csv_to_snowflake empty_env).2 ∧
    (upload_csv_to_snowflake empty_env).1 = .success 0 2 := by
  have h := empty_csv_still_uploads empty_env empty_df
      [["0", "zero", "0"], ["9", "nine", "9"]] rfl rfl rfl rfl rfl
  simpa using h
